import Mathlib

/-!
Verification development for the device-monitor service: a Go/Gin HTTP
CRUD service over a single `users` table backed by PostgreSQL via a
pgx connection pool.  The handlers (internal/api), router
(internal/routes) and `main` are shallowly embedded below.  The
database is modelled as a list of rows plus a serial id counter;
environment nondeterminism (query failure, scan failure, the database
clock, the health probe outcome) is passed as explicit parameters.
-/

namespace DeviceMonitor

/-- A row of the `users` table, mirroring the Go `User` struct
(`id`, `name`, `email`, `created_at`, `updated_at`).  Timestamps are
modelled as naturals. -/
structure User where
  id : Int
  name : String
  email : String
  created_at : Nat
  updated_at : Nat
deriving DecidableEq, Repr

/-- State of the `users` table: its rows plus the next value of the
database-owned serial primary-key sequence. -/
structure Table where
  rows : List User
  nextId : Int
deriving DecidableEq, Repr

/-- Numeric value of an ASCII decimal digit, `none` for any other
character. -/
def digitVal (c : Char) : Option Nat :=
  if '0' ≤ c ∧ c ≤ '9' then some (c.toNat - '0'.toNat) else none

/-- Accumulate the decimal value of a digit string; `none` on the
first non-digit. -/
def parseDigitsAux : List Char → Nat → Option Nat
  | [], acc => some acc
  | c :: cs, acc =>
    match digitVal c with
    | some d => parseDigitsAux cs (acc * 10 + d)
    | none => none

/-- Largest value of Go's 64-bit `int`. -/
def intMax : Nat := 9223372036854775807

/-- Model of Go's `strconv.Atoi`: an optional sign followed by a
nonempty run of decimal digits, failing (`none`) on an empty string,
a bare sign, any non-digit character, or 64-bit overflow/underflow
(Go returns `ErrRange` there, which the handlers treat as a parse
failure). -/
def atoi (s : String) : Option Int :=
  match s.toList with
  | [] => none
  | '+' :: rest =>
    match rest with
    | [] => none
    | _ => (parseDigitsAux rest 0).bind fun n =>
        if n ≤ intMax then some (Int.ofNat n) else none
  | '-' :: rest =>
    match rest with
    | [] => none
    | _ => (parseDigitsAux rest 0).bind fun n =>
        if n ≤ intMax + 1 then some (-(Int.ofNat n)) else none
  | cs => (parseDigitsAux cs 0).bind fun n =>
      if n ≤ intMax then some (Int.ofNat n) else none

/-- The Go `encoding/json` image of a `[]User` slice: a nil slice
marshals to JSON `null`, a non-nil one to an array.  In `GetUsers`
the slice is declared `var users []User` (nil) and only `append`
makes it non-nil, so it is nil exactly when no row was scanned. -/
inductive UsersJson
  | null
  | arr (us : List User)
deriving DecidableEq, Repr

/-- Marshal the `users` slice of `GetUsers` as `encoding/json` does:
it stayed nil (marshals to `null`) iff no row was appended. -/
def marshalSlice (us : List User) : UsersJson :=
  if us.isEmpty then .null else .arr us

/-- The JSON response a handler sends with `c.JSON`: a status code
plus the fields the handlers use, absent fields being `none`. -/
structure Response where
  status : Nat
  statusField : Option String := none
  message : Option String := none
  errMsg : Option String := none
  user : Option User := none
  usersJson : Option UsersJson := none
  count : Option Nat := none
  time : Option Nat := none
deriving DecidableEq, Repr

/-- The JSON body of a create/update request after Gin has bound it:
the `name` and `email` fields of the anonymous request struct. -/
structure UserInput where
  name : String
  email : String
deriving DecidableEq, Repr

/-- A request body as received: either syntactically malformed JSON
(or JSON whose fields have the wrong type), carrying the decoder
error message, or an object whose `name`/`email` members may each be
absent. -/
inductive JsonBody
  | malformed (msg : String)
  | object (name : Option String) (email : Option String)
deriving DecidableEq, Repr

/-- Binding error message for a missing or empty `name` (validator
`required` tag fails on the zero value ""). -/
def nameRequiredErr : String :=
  "Key: Name Error:Field validation for Name failed on the required tag"

/-- Binding error message for a missing or empty `email`. -/
def emailRequiredErr : String :=
  "Key: Email Error:Field validation for Email failed on the required tag"

/-- Binding error message for an `email` value rejected by the
`email` format validator. -/
def emailFormatErr : String :=
  "Key: Email Error:Field validation for Email failed on the email tag"

/-- Model of `c.ShouldBindJSON` on the create/update request struct
`{ Name string binding:"required"; Email string binding:"required,email" }`:
JSON decode errors are surfaced as-is; an absent member leaves the Go
zero value "", on which the `required` tag fails; a present `email`
must additionally pass the email-format validator, modelled by the
parameter `emailOk` since the validator is library code. -/
def bindJson (emailOk : String → Bool) : JsonBody → Except String UserInput
  | .malformed msg => .error msg
  | .object name? email? =>
    let name := name?.getD ""
    let email := email?.getD ""
    if name = "" then .error nameRequiredErr
    else if email = "" then .error emailRequiredErr
    else if emailOk email then .ok ⟨name, email⟩
    else .error emailFormatErr

/-- `SELECT ... FROM users WHERE id = $1` read through `QueryRow`:
the first row matching the primary key, `none` playing the role of
`pgx.ErrNoRows`. -/
def findUser (rows : List User) (id : Int) : Option User :=
  rows.find? fun u => u.id == id

/-- `ORDER BY created_at DESC`: later-created rows first. -/
def createdDescRel (a b : User) : Prop := b.created_at ≤ a.created_at

instance : DecidableRel createdDescRel := fun _ _ => Nat.decLe _ _

instance : IsTotal User createdDescRel :=
  ⟨fun a b => (Nat.le_total b.created_at a.created_at)⟩

instance : IsTrans User createdDescRel :=
  ⟨fun _ _ _ h1 h2 => Nat.le_trans h2 h1⟩

/-- The result set of `SELECT id, name, email, created_at, updated_at
FROM users ORDER BY created_at DESC`: all rows, sorted by
`created_at` descending. -/
def selectAllDesc (rows : List User) : List User :=
  rows.insertionSort createdDescRel

/-- `GET /health`: ping the pool with a 5s timeout; 503 with status
"unhealthy" and the underlying error string on failure, 200 with
status "healthy" and the current time on success.  `pingErr` is the
outcome of `pool.Ping` (`some e` = failed with error text `e`). -/
def HealthCheck (pingErr : Option String) (now : Nat) : Response :=
  match pingErr with
  | some e =>
    { status := 503
      statusField := some "unhealthy"
      message := some "Database connection failed"
      errMsg := some e }
  | none =>
    { status := 200
      statusField := some "healthy"
      message := some "Service is running"
      time := some now }

/-- `GET /api/v1/ping`: unconditional 200, no database access. -/
def Ping (now : Nat) : Response :=
  { status := 200, message := some "pong", time := some now }

/-- `GET /api/v1/users`: query all rows ordered by `created_at`
descending; 500 if the query fails (`qfail`), if scanning some row
fails (`scanfail`; only possible when at least one row exists), or if
row iteration ends in error (`iterfail`); otherwise 200 with the
slice and its length as `count`. -/
def GetUsers (rows : List User) (qfail scanfail iterfail : Bool) : Response :=
  if qfail then { status := 500, errMsg := some "Failed to fetch users" }
  else
    let result := selectAllDesc rows
    if scanfail && !result.isEmpty then
      { status := 500, errMsg := some "Failed to scan user data" }
    else if iterfail then
      { status := 500, errMsg := some "Error iterating over rows" }
    else
      { status := 200
        usersJson := some (marshalSlice result)
        count := some result.length }

/-- `GET /api/v1/users/:id`: 400 if the path id does not `Atoi`;
otherwise a primary-key lookup — 500 if the query fails for a reason
other than no-rows (`qfail`), 404 on `pgx.ErrNoRows`, 200 with the
row otherwise. -/
def GetUser (idStr : String) (rows : List User) (qfail : Bool) : Response :=
  match atoi idStr with
  | none => { status := 400, errMsg := some "Invalid user ID" }
  | some id =>
    if qfail then { status := 500, errMsg := some "Failed to fetch user" }
    else
      match findUser rows id with
      | none => { status := 404, errMsg := some "User not found" }
      | some u => { status := 200, user := some u }

/-- `POST /api/v1/users`: 400 with the binding error verbatim if the
body fails to bind; otherwise `INSERT ... VALUES ($1,$2,NOW(),NOW())
RETURNING ...` — 500 on insert failure (`insertFail`), else 201 with
the created row (serial `id`, both timestamps the database clock
`now`).  Returns the response together with the resulting table. -/
def CreateUser (emailOk : String → Bool) (body : JsonBody) (t : Table)
    (now : Nat) (insertFail : Bool) : Response × Table :=
  match bindJson emailOk body with
  | .error e => ({ status := 400, errMsg := some e }, t)
  | .ok inp =>
    if insertFail then
      ({ status := 500, errMsg := some "Failed to create user" }, t)
    else
      let u : User :=
        { id := t.nextId
          name := inp.name
          email := inp.email
          created_at := now
          updated_at := now }
      ({ status := 201
         message := some "User created successfully"
         user := some u },
       { rows := t.rows ++ [u], nextId := t.nextId + 1 })

/-- The effect of `UPDATE users SET name=$1, email=$2,
updated_at=NOW()` on one row: `name`, `email` overwritten,
`updated_at` refreshed to the database clock, `id` and `created_at`
untouched. -/
def updateRow (now : Nat) (inp : UserInput) (u : User) : User :=
  { u with name := inp.name, email := inp.email, updated_at := now }

/-- `PUT /api/v1/users/:id`: 400 on unparseable id or on a binding
error (verbatim); otherwise `UPDATE ... WHERE id=$3 RETURNING ...`
read through `QueryRow` — 500 on other query failure (`qfail`), 404
on `pgx.ErrNoRows` (no row has that id), else 200 with the updated
row and the table updated in place. -/
def UpdateUser (emailOk : String → Bool) (idStr : String) (body : JsonBody)
    (t : Table) (now : Nat) (qfail : Bool) : Response × Table :=
  match atoi idStr with
  | none => ({ status := 400, errMsg := some "Invalid user ID" }, t)
  | some id =>
    match bindJson emailOk body with
    | .error e => ({ status := 400, errMsg := some e }, t)
    | .ok inp =>
      if qfail then
        ({ status := 500, errMsg := some "Failed to update user" }, t)
      else
        match findUser t.rows id with
        | none => ({ status := 404, errMsg := some "User not found" }, t)
        | some u =>
          ({ status := 200
             message := some "User updated successfully"
             user := some (updateRow now inp u) },
           { t with rows :=
               t.rows.map fun v => if v.id == id then updateRow now inp v else v })

/-- `DELETE /api/v1/users/:id`: 400 on unparseable id; otherwise
`Exec DELETE FROM users WHERE id = $1` — 500 if the statement fails
(`qfail`), else inspect `RowsAffected`: 404 when zero, 200 with a
confirmation message otherwise, the matching rows removed. -/
def DeleteUser (idStr : String) (t : Table) (qfail : Bool) : Response × Table :=
  match atoi idStr with
  | none => ({ status := 400, errMsg := some "Invalid user ID" }, t)
  | some id =>
    if qfail then
      ({ status := 500, errMsg := some "Failed to delete user" }, t)
    else
      let affected := t.rows.countP fun u => u.id == id
      if affected == 0 then
        ({ status := 404, errMsg := some "User not found" }, t)
      else
        ({ status := 200, message := some "User deleted successfully" },
         { t with rows := t.rows.filter fun u => !(u.id == id) })

/-- An observable resource action of the process; the only one the
claims need is closing the connection pool. -/
inductive Action
  | closePool
deriving DecidableEq, Repr

/-- Process state for the `main` model: the stack of deferred calls,
the actions actually executed, and the exit code once exited. -/
structure ProcState where
  deferred : List Action
  executed : List Action
  exitCode : Option Nat
deriving DecidableEq, Repr

/-- Go `defer a()`: push `a` on the deferred stack. -/
def deferAction (a : Action) (s : ProcState) : ProcState :=
  { s with deferred := a :: s.deferred }

/-- Go `log.Fatal`, i.e. `os.Exit(1)`: the process terminates
immediately and deferred functions are NOT run (os.Exit is documented
to skip them). -/
def logFatal (s : ProcState) : ProcState :=
  { s with exitCode := some 1 }

/-- A normal return from `main`: deferred functions run (LIFO), then
the process exits 0.  `main` below never reaches this. -/
def returnFromMain (s : ProcState) : ProcState :=
  { s with
    executed := (s.executed ++ s.deferred)
    deferred := []
    exitCode := some 0 }

/-- `main`: `initDB` either fails (`initDbOk = false`), upon which
`log.Fatal` exits before any defer is registered, or succeeds, upon
which `defer db.Close()` is registered and `http.ListenAndServe` is
called.  `ListenAndServe` blocks until it fails and always returns a
non-nil error, which `main` passes to `log.Fatal`; so every exit of
the process goes through `os.Exit`. -/
def mainProc (initDbOk : Bool) : ProcState :=
  let s0 : ProcState := ⟨[], [], none⟩
  if initDbOk then
    logFatal (deferAction .closePool s0)
  else
    logFatal s0

/-- A sample row used to instantiate theorems at concrete inputs. -/
def sampleUser : User :=
  { id := 7, name := "Ada", email := "ada@example.com", created_at := 1, updated_at := 1 }

/-- C1: for every GET /api/v1/users/:id request, an unparseable path id
yields 400; a parsed id with a failing query yields 500; a parsed id
whose lookup hits no row yields 404 (never 500); and a parsed id whose
lookup finds a row yields 200 with that row. -/
theorem getUser_contract (idStr : String) (rows : List User) (qfail : Bool) :
    (atoi idStr = none →
      GetUser idStr rows qfail = { status := 400, errMsg := some "Invalid user ID" }) ∧
    (∀ id, atoi idStr = some id → qfail = true →
      GetUser idStr rows qfail = { status := 500, errMsg := some "Failed to fetch user" }) ∧
    (∀ id, atoi idStr = some id → qfail = false → findUser rows id = none →
      GetUser idStr rows qfail = { status := 404, errMsg := some "User not found" }) ∧
    (∀ id u, atoi idStr = some id → qfail = false → findUser rows id = some u →
      GetUser idStr rows qfail = { status := 200, user := some u }) := by
  refine ⟨fun h => ?_, fun id h hq => ?_, fun id h hq hf => ?_, fun id u h hq hf => ?_⟩
  · simp [GetUser, h]
  · simp [GetUser, h, hq]
  · simp [GetUser, h, hq, hf]
  · simp [GetUser, h, hq, hf]

/-- Witness for C1 at concrete inputs: id "7" parses, the lookup finds
the sample row, and the handler returns 200 with it. -/
theorem getUser_contract_witness :
    atoi "7" = some 7 ∧ findUser [sampleUser] 7 = some sampleUser ∧
    GetUser "7" [sampleUser] false = { status := 200, user := some sampleUser } :=
  ⟨by decide, by decide,
   (getUser_contract "7" [sampleUser] false).2.2.2 7 sampleUser (by decide) rfl (by decide)⟩

/-- C4: for every DELETE /api/v1/users/:id request with a parseable id,
a failing delete statement yields 500 with the table unchanged; zero
affected rows yield 404 with the table unchanged; exactly one affected
row yields 200 with the confirmation message and the row removed. -/
theorem deleteUser_contract (idStr : String) (t : Table) (qfail : Bool) :
    (∀ id, atoi idStr = some id → qfail = true →
      DeleteUser idStr t qfail = ({ status := 500, errMsg := some "Failed to delete user" }, t)) ∧
    (∀ id, atoi idStr = some id → qfail = false →
      (t.rows.countP fun u => u.id == id) = 0 →
      DeleteUser idStr t qfail = ({ status := 404, errMsg := some "User not found" }, t)) ∧
    (∀ id, atoi idStr = some id → qfail = false →
      (t.rows.countP fun u => u.id == id) = 1 →
      DeleteUser idStr t qfail =
        ({ status := 200, message := some "User deleted successfully" },
         { t with rows := t.rows.filter fun u => !(u.id == id) })) := by
  refine ⟨fun id h hq => ?_, fun id h hq hc => ?_, fun id h hq hc => ?_⟩
  · simp [DeleteUser, h, hq]
  · simp [DeleteUser, h, hq, hc]
  · simp [DeleteUser, h, hq, hc]

/-- Witness for C4 at concrete inputs: deleting id 7 from a table whose
only row has id 7 affects exactly one row and returns 200 with the row
removed. -/
theorem deleteUser_contract_witness :
    atoi "7" = some 7 ∧ ([sampleUser].countP fun u => u.id == 7) = 1 ∧
    DeleteUser "7" ⟨[sampleUser], 8⟩ false =
      ({ status := 200, message := some "User deleted successfully" }, ⟨[], 8⟩) :=
  ⟨by decide, by decide,
   (deleteUser_contract "7" ⟨[sampleUser], 8⟩ false).2.2 7 (by decide) rfl (by decide)⟩

/-- C6: every GET /health request returns 503 with status "unhealthy"
and the underlying error string when the pool probe fails, and 200 with
status "healthy" and a timestamp when it succeeds. -/
theorem healthCheck_contract (pingErr : Option String) (now : Nat) :
    (∀ e, pingErr = some e →
      HealthCheck pingErr now =
        { status := 503, statusField := some "unhealthy", message := some "Database connection failed", errMsg := some e }) ∧
    (pingErr = none →
      HealthCheck pingErr now =
        { status := 200, statusField := some "healthy", message := some "Service is running", time := some now }) := by
  refine ⟨fun e h => ?_, fun h => ?_⟩
  · simp [HealthCheck, h]
  · simp [HealthCheck, h]

/-- Witness for C6 at a concrete failed probe: the 503 response carries
the probe error verbatim. -/
theorem healthCheck_contract_witness :
    (some "connection refused" : Option String) = some "connection refused" ∧
    HealthCheck (some "connection refused") 3 =
      { status := 503, statusField := some "unhealthy", message := some "Database connection failed", errMsg := some "connection refused" } :=
  ⟨rfl, (healthCheck_contract (some "connection refused") 3).1 "connection refused" rfl⟩

/-- C9: on an empty users table a successful GET /api/v1/users returns
200 with count 0 and the `users` field marshalled as JSON null, because
the Go slice stayed nil; `marshalSlice` sends the empty slice to null,
not to an empty array. -/
theorem getUsers_empty_nil_slice (scanfail : Bool) :
    GetUsers [] false scanfail false =
      { status := 200, usersJson := some UsersJson.null, count := some 0 } ∧
    marshalSlice [] = UsersJson.null ∧ marshalSlice [] ≠ UsersJson.arr [] := by
  cases scanfail <;> exact ⟨rfl, rfl, by decide⟩

/-- C10: any path id that Atoi accepts — including "0" and the
negative "-5" — is treated as well-formed by Get, Update and Delete:
the handler proceeds to the database and answers 404 when no row
matches, not 400. -/
theorem parsedId_proceeds (idStr : String) (rows : List User) (t : Table)
    (emailOk : String → Bool) (body : JsonBody) (now : Nat) :
    atoi "-5" = some (-5) ∧ atoi "0" = some 0 ∧
    (∀ id, atoi idStr = some id → findUser rows id = none →
      (GetUser idStr rows false).status = 404) ∧
    (∀ id inp, atoi idStr = some id → bindJson emailOk body = .ok inp →
      findUser t.rows id = none →
      (UpdateUser emailOk idStr body t now false).1.status = 404) ∧
    (∀ id, atoi idStr = some id → (t.rows.countP fun u => u.id == id) = 0 →
      (DeleteUser idStr t false).1.status = 404) := by
  refine ⟨by decide, by decide, fun id h hf => ?_, fun id inp h hb hf => ?_, fun id h hc => ?_⟩
  · simp [GetUser, h, hf]
  · simp [UpdateUser, h, hb, hf]
  · simp [DeleteUser, h, hc]

/-- Witness for C10 at the concrete id "-5" on an empty table: the id
parses and all three handlers answer 404. -/
theorem parsedId_proceeds_witness :
    atoi "-5" = some (-5) ∧
    (GetUser "-5" [] false).status = 404 ∧
    (UpdateUser (fun _ => true) "-5" (.object (some "Ada") (some "ada@example.com")) ⟨[], 1⟩ 0 false).1.status = 404 ∧
    (DeleteUser "-5" ⟨[], 1⟩ false).1.status = 404 :=
  ⟨by decide,
   (parsedId_proceeds "-5" [] ⟨[], 1⟩ (fun _ => true) (.object (some "Ada") (some "ada@example.com")) 0).2.2.1 (-5) (by decide) rfl,
   (parsedId_proceeds "-5" [] ⟨[], 1⟩ (fun _ => true) (.object (some "Ada") (some "ada@example.com")) 0).2.2.2.1 (-5) ⟨"Ada", "ada@example.com"⟩ (by decide) rfl rfl,
   (parsedId_proceeds "-5" [] ⟨[], 1⟩ (fun _ => true) (.object (some "Ada") (some "ada@example.com")) 0).2.2.2.2 (-5) (by decide) rfl⟩

/-- C2: for every POST /api/v1/users request, a malformed body, a
missing or empty `name`, or an `email` rejected by the format validator
makes binding fail, and every binding failure yields 400 with the
binding error surfaced verbatim and the table unchanged; a body that
binds yields 201 with the full created row (serial id, both timestamps
set to the database clock) when the insert succeeds, and 500 with the
table unchanged when it fails. -/
theorem createUser_contract (emailOk : String → Bool) (body : JsonBody)
    (t : Table) (now : Nat) (insertFail : Bool) :
    (∀ e, bindJson emailOk body = .error e →
      CreateUser emailOk body t now insertFail = ({ status := 400, errMsg := some e }, t)) ∧
    (∀ msg, body = .malformed msg → bindJson emailOk body = .error msg) ∧
    (∀ name? email?, body = .object name? email? → name?.getD "" = "" →
      bindJson emailOk body = .error nameRequiredErr) ∧
    (∀ name? email, body = .object name? (some email) → name?.getD "" ≠ "" →
      email ≠ "" → emailOk email = false →
      bindJson emailOk body = .error emailFormatErr) ∧
    (∀ inp, bindJson emailOk body = .ok inp → insertFail = false →
      CreateUser emailOk body t now insertFail =
        ({ status := 201
           message := some "User created successfully"
           user := some { id := t.nextId, name := inp.name, email := inp.email, created_at := now, updated_at := now } },
         { rows := t.rows ++ [{ id := t.nextId, name := inp.name, email := inp.email, created_at := now, updated_at := now }]
           nextId := t.nextId + 1 })) ∧
    (∀ inp, bindJson emailOk body = .ok inp → insertFail = true →
      CreateUser emailOk body t now insertFail =
        ({ status := 500, errMsg := some "Failed to create user" }, t)) := by
  refine ⟨fun e h => ?_, fun msg h => ?_, fun name? email? h hn => ?_,
    fun name? email h hn he hv => ?_, fun inp h hi => ?_, fun inp h hi => ?_⟩
  · simp [CreateUser, h]
  · simp [bindJson, h]
  · simp [bindJson, h, hn]
  · subst h; simp [bindJson, hn, he, hv]
  · simp [CreateUser, h, hi]
  · simp [CreateUser, h, hi]

/-- Witness for C2 at concrete inputs: an empty `name` makes binding
fail with the required-tag error, the handler returns it verbatim with
400 and leaves the table unchanged; a valid body returns 201 with the
created row. -/
theorem createUser_contract_witness :
    bindJson (fun _ => true) (.object (some "") (some "ada@example.com")) = .error nameRequiredErr ∧
    CreateUser (fun _ => true) (.object (some "") (some "ada@example.com")) ⟨[], 1⟩ 5 false =
      ({ status := 400, errMsg := some nameRequiredErr }, ⟨[], 1⟩) ∧
    CreateUser (fun _ => true) (.object (some "Ada") (some "ada@example.com")) ⟨[], 1⟩ 5 false =
      ({ status := 201
         message := some "User created successfully"
         user := some { id := 1, name := "Ada", email := "ada@example.com", created_at := 5, updated_at := 5 } },
       ⟨[{ id := 1, name := "Ada", email := "ada@example.com", created_at := 5, updated_at := 5 }], 2⟩) :=
  ⟨rfl,
   (createUser_contract (fun _ => true) (.object (some "") (some "ada@example.com")) ⟨[], 1⟩ 5 false).1
     nameRequiredErr rfl,
   (createUser_contract (fun _ => true) (.object (some "Ada") (some "ada@example.com")) ⟨[], 1⟩ 5 false).2.2.2.2.1
     ⟨"Ada", "ada@example.com"⟩ rfl rfl⟩

/-- C5: every GET /api/v1/users request runs the unfiltered select
ordered by `created_at` descending; a query failure or a row-scan
failure yields 500; on success it returns 200 with the marshalled
result and a count equal to its length, where the result is sorted by
`created_at` descending and is a permutation (no filter, no limit) of
the table rows. -/
theorem getUsers_contract (rows : List User) (qfail scanfail iterfail : Bool) :
    (qfail = true → GetUsers rows qfail scanfail iterfail =
      { status := 500, errMsg := some "Failed to fetch users" }) ∧
    (scanfail = true → (selectAllDesc rows).isEmpty = false →
      GetUsers rows false scanfail iterfail =
        { status := 500, errMsg := some "Failed to scan user data" }) ∧
    (GetUsers rows false false false =
      { status := 200
        usersJson := some (marshalSlice (selectAllDesc rows))
        count := some (selectAllDesc rows).length }) ∧
    (selectAllDesc rows).length = rows.length ∧
    List.Perm (selectAllDesc rows) rows ∧
    (selectAllDesc rows).Sorted createdDescRel := by
  refine ⟨fun hq => ?_, fun hs he => ?_, ?_, ?_, ?_, ?_⟩
  · simp [GetUsers, hq]
  · simp [GetUsers, hs, he]
  · simp [GetUsers]
  · exact (List.perm_insertionSort createdDescRel rows).length_eq
  · exact List.perm_insertionSort createdDescRel rows
  · exact List.sorted_insertionSort createdDescRel rows

/-- Witness for C5: a failing query on a two-row table yields 500, and
the successful path returns the rows sorted by `created_at`
descending with count 2. -/
theorem getUsers_contract_witness :
    GetUsers [sampleUser, { sampleUser with id := 8, created_at := 4 }] true false false =
      { status := 500, errMsg := some "Failed to fetch users" } ∧
    GetUsers [sampleUser, { sampleUser with id := 8, created_at := 4 }] false false false =
      { status := 200
        usersJson := some (.arr [{ sampleUser with id := 8, created_at := 4 }, sampleUser])
        count := some 2 } :=
  ⟨(getUsers_contract [sampleUser, { sampleUser with id := 8, created_at := 4 }] true false false).1 rfl,
   by
    have h := (getUsers_contract [sampleUser, { sampleUser with id := 8, created_at := 4 }] false false false).2.2.1
    rw [h]; decide⟩

/-- C3: for every PUT /api/v1/users/:id request, an unparseable id or a
binding failure yields 400 with the table unchanged; a failing update
statement yields 500; no matching row yields 404; and a matching row u
yields 200 with `updateRow now inp u`, the table mapped so that only
rows with that id change — `updateRow` overwrites exactly `name` and
`email`, sets `updated_at` to the database clock (strictly above the
old value whenever the clock advanced), and keeps `id` and
`created_at`; every row with a different id survives untouched. -/
theorem updateUser_contract (emailOk : String → Bool) (idStr : String)
    (body : JsonBody) (t : Table) (now : Nat) (qfail : Bool) :
    (atoi idStr = none → UpdateUser emailOk idStr body t now qfail =
      ({ status := 400, errMsg := some "Invalid user ID" }, t)) ∧
    (∀ id e, atoi idStr = some id → bindJson emailOk body = .error e →
      UpdateUser emailOk idStr body t now qfail = ({ status := 400, errMsg := some e }, t)) ∧
    (∀ id inp, atoi idStr = some id → bindJson emailOk body = .ok inp → qfail = true →
      UpdateUser emailOk idStr body t now qfail =
        ({ status := 500, errMsg := some "Failed to update user" }, t)) ∧
    (∀ id inp, atoi idStr = some id → bindJson emailOk body = .ok inp → qfail = false →
      findUser t.rows id = none →
      UpdateUser emailOk idStr body t now qfail =
        ({ status := 404, errMsg := some "User not found" }, t)) ∧
    (∀ id inp u, atoi idStr = some id → bindJson emailOk body = .ok inp → qfail = false →
      findUser t.rows id = some u →
      UpdateUser emailOk idStr body t now qfail =
        ({ status := 200
           message := some "User updated successfully"
           user := some (updateRow now inp u) },
         { t with rows := t.rows.map fun v => if v.id == id then updateRow now inp v else v }) ∧
      (updateRow now inp u).id = u.id ∧
      (updateRow now inp u).created_at = u.created_at ∧
      (updateRow now inp u).name = inp.name ∧
      (updateRow now inp u).email = inp.email ∧
      (updateRow now inp u).updated_at = now ∧
      (u.updated_at < now → u.updated_at < (updateRow now inp u).updated_at) ∧
      (∀ v ∈ t.rows, v.id ≠ id →
        v ∈ (UpdateUser emailOk idStr body t now qfail).2.rows)) := by
  refine ⟨fun h => ?_, fun id e h hb => ?_, fun id inp h hb hq => ?_,
    fun id inp h hb hq hf => ?_, fun id inp u h hb hq hf => ?_⟩
  · simp [UpdateUser, h]
  · simp [UpdateUser, h, hb]
  · simp [UpdateUser, h, hb, hq]
  · simp [UpdateUser, h, hb, hq, hf]
  · refine ⟨by simp [UpdateUser, h, hb, hq, hf], rfl, rfl, rfl, rfl, rfl, fun hlt => hlt,
      fun v hv hne => ?_⟩
    simp [UpdateUser, h, hb, hq, hf]
    exact ⟨v, hv, by simp [hne]⟩

/-- Witness for C3 at concrete inputs: updating the sample row (id 7)
at clock 9 returns 200 with only `name`, `email`, `updated_at`
changed, and `updated_at` strictly increased from 1 to 9. -/
theorem updateUser_contract_witness :
    atoi "7" = some 7 ∧
    bindJson (fun _ => true) (.object (some "Bob") (some "bob@example.com")) =
      .ok ⟨"Bob", "bob@example.com"⟩ ∧
    findUser [sampleUser] 7 = some sampleUser ∧
    UpdateUser (fun _ => true) "7" (.object (some "Bob") (some "bob@example.com"))
        ⟨[sampleUser], 8⟩ 9 false =
      ({ status := 200
         message := some "User updated successfully"
         user := some { id := 7, name := "Bob", email := "bob@example.com", created_at := 1, updated_at := 9 } },
       ⟨[{ id := 7, name := "Bob", email := "bob@example.com", created_at := 1, updated_at := 9 }], 8⟩) ∧
    sampleUser.updated_at < 9 :=
  ⟨by decide, rfl, by decide,
   by
    have h := ((updateUser_contract (fun _ => true) "7"
      (.object (some "Bob") (some "bob@example.com")) ⟨[sampleUser], 8⟩ 9 false).2.2.2.2
      7 ⟨"Bob", "bob@example.com"⟩ sampleUser (by decide) rfl rfl (by decide)).1
    rw [h]; decide,
   by decide⟩

/-- On a table whose rows all have ids different from `u.id`,
appending `u` and looking up `u.id` finds exactly `u` (the
`QueryRow` view of the insert-then-select round trip). -/
theorem findUser_append_fresh (rows : List User) (u : User)
    (h : ∀ v ∈ rows, v.id ≠ u.id) : findUser (rows ++ [u]) u.id = some u := by
  induction rows with
  | nil => simp [findUser]
  | cons v vs ih =>
    have hv : (v.id == u.id) = false := by
      simpa using h v (by simp)
    simp only [findUser, List.cons_append, List.find?_cons, hv]
    exact ih fun w hw => h w (by simp [hw])

/-- C7: a create whose body binds and whose insert succeeds returns
201 with a row u, and an immediately following GET on any path id
denoting the returned id (on the post-insert table, with the id fresh
for the pre-insert rows, as the database serial guarantees) returns
200 with exactly the same row. -/
theorem create_get_roundtrip (emailOk : String → Bool) (body : JsonBody)
    (t : Table) (now : Nat) (inp : UserInput) (idStr : String)
    (hbind : bindJson emailOk body = .ok inp)
    (hfresh : ∀ v ∈ t.rows, v.id ≠ t.nextId)
    (hid : atoi idStr = some t.nextId) :
    (CreateUser emailOk body t now false).1.status = 201 ∧
    ∃ u : User,
      (CreateUser emailOk body t now false).1.user = some u ∧
      u = { id := t.nextId, name := inp.name, email := inp.email, created_at := now, updated_at := now } ∧
      GetUser idStr (CreateUser emailOk body t now false).2.rows false =
        { status := 200, user := some u } := by
  have hc : CreateUser emailOk body t now false =
      ({ status := 201
         message := some "User created successfully"
         user := some { id := t.nextId, name := inp.name, email := inp.email, created_at := now, updated_at := now } },
       { rows := t.rows ++ [{ id := t.nextId, name := inp.name, email := inp.email, created_at := now, updated_at := now }]
         nextId := t.nextId + 1 }) := by
    simp [CreateUser, hbind]
  refine ⟨by rw [hc], ⟨_, by rw [hc], rfl, ?_⟩⟩
  rw [hc]
  simp only [GetUser, hid]
  rw [findUser_append_fresh t.rows _ hfresh]
  rfl

/-- Witness for C7 at concrete inputs: creating Ada in an empty table
(serial id 1) and fetching "/api/v1/users/1" returns the identical
row. -/
theorem create_get_roundtrip_witness :
    bindJson (fun _ => true) (.object (some "Ada") (some "ada@example.com")) =
      .ok ⟨"Ada", "ada@example.com"⟩ ∧
    atoi "1" = some 1 ∧
    ((CreateUser (fun _ => true) (.object (some "Ada") (some "ada@example.com")) ⟨[], 1⟩ 5 false).1.status = 201 ∧
     ∃ u : User,
       (CreateUser (fun _ => true) (.object (some "Ada") (some "ada@example.com")) ⟨[], 1⟩ 5 false).1.user = some u ∧
       u = { id := 1, name := "Ada", email := "ada@example.com", created_at := 5, updated_at := 5 } ∧
       GetUser "1" (CreateUser (fun _ => true) (.object (some "Ada") (some "ada@example.com")) ⟨[], 1⟩ 5 false).2.rows false =
         { status := 200, user := some u }) :=
  ⟨rfl, by decide,
   create_get_roundtrip (fun _ => true) (.object (some "Ada") (some "ada@example.com"))
     ⟨[], 1⟩ 5 ⟨"Ada", "ada@example.com"⟩ "1" rfl (by simp) (by decide)⟩

/-- C8: the claim that `main` invokes the pool's Close on every orderly
shutdown fails on the code: whether `initDB` succeeds (registering
`defer db.Close()`) or not, every exit goes through `log.Fatal`, i.e.
`os.Exit(1)`, which skips deferred functions — so `closePool` is never
among the executed actions and the exit code is always 1. -/
theorem mainProc_never_closes (initDbOk : Bool) :
    Action.closePool ∉ (mainProc initDbOk).executed ∧
    (mainProc initDbOk).executed = [] ∧
    (mainProc initDbOk).exitCode = some 1 ∧
    (initDbOk = true → (mainProc initDbOk).deferred = [Action.closePool]) := by
  cases initDbOk <;> exact ⟨by decide, rfl, rfl, by simp [mainProc, logFatal, deferAction]⟩

/-- Witness for C8: on the successful-start run, `db.Close` sits
registered on the defer stack yet is never executed. -/
theorem mainProc_never_closes_witness :
    Action.closePool ∉ (mainProc true).executed ∧
    (mainProc true).deferred = [Action.closePool] :=
  ⟨(mainProc_never_closes true).1, (mainProc_never_closes true).2.2.2 rfl⟩

end DeviceMonitor
